import Mathlib

set_option maxRecDepth 100000

/-!
# Verification of the waste-cycle chat controller

Shallow embedding of `server/src/controllers/chatController.js`:
the room identity function (`generateChatRoomId`), the chat room
service (`getChatRooms`, `createChatRoom`, `getChatRoomById`) and the
message service (`postMessage`, `getMessages`), together with proofs of
the specified properties.

JavaScript values that matter to the controller are modelled explicitly:
identifiers stored in the document store can be strings or (legacy)
numbers (`PVal`), `String(x)` normalization is `PVal.toStr`, the
`x || y` falsy fallback on strings is `jsOrStr`, and `find(...) || null`
is `jsOrNull`.  Machine integers in the hash are `Nat` reduced mod 2^32.
-/

namespace WasteCycle

/-- A JavaScript value stored in a document field that the controller
normalizes with `String(...)`: either a string or a legacy number. -/
inductive PVal where
  | str (s : String)
  | num (n : Nat)
deriving DecidableEq, Repr

/-- `String(v)` on a stored identifier value. -/
def PVal.toStr : PVal → String
  | .str s => s
  | .num n => toString n

/-- JavaScript truthiness test for a stored value (`''` and `0` are falsy). -/
def PVal.isFalsy : PVal → Bool
  | .str s => s = ""
  | .num n => n = 0

/-- `String(v || '')` : the seller-id normalization of `product.userId`
(line 145 of the controller). A missing or falsy owner value becomes `""`. -/
def jsStringOrEmpty : Option PVal → String
  | none => ""
  | some v => if v.isFalsy then "" else v.toStr

/-- `a || b` where `a` is an optional string: an absent or empty string
falls through to `b`. -/
def jsOrStr : Option String → String → String
  | some s, b => if s = "" then b else s
  | none, b => b

/-- `x || null` where `x` is the result of `Array.prototype.find`:
`undefined` and the empty string collapse to `null`. -/
def jsOrNull : Option String → Option String
  | some s => if s = "" then none else some s
  | none => none

/-- `s.trim()` : strip leading and trailing whitespace. -/
def jsTrim (s : String) : String :=
  String.mk (((s.data.dropWhile Char.isWhitespace).reverse.dropWhile
    Char.isWhitespace).reverse)

/-! ## SHA-256 (crypto.createHash('sha256'), modelled over `Nat`) -/

/-- Truncate to a 32-bit word. -/
def w32 (n : Nat) : Nat := n % 4294967296

/-- Right rotation of a 32-bit word. -/
def rotr32 (k x : Nat) : Nat := w32 ((x >>> k) ||| (x <<< (32 - k)))

def sigBig0 (x : Nat) : Nat := (rotr32 2 x) ^^^ (rotr32 13 x) ^^^ (rotr32 22 x)

def sigBig1 (x : Nat) : Nat := (rotr32 6 x) ^^^ (rotr32 11 x) ^^^ (rotr32 25 x)

def sigSmall0 (x : Nat) : Nat := (rotr32 7 x) ^^^ (rotr32 18 x) ^^^ (x >>> 3)

def sigSmall1 (x : Nat) : Nat := (rotr32 17 x) ^^^ (rotr32 19 x) ^^^ (x >>> 10)

def chFn (x y z : Nat) : Nat := (x &&& y) ^^^ ((x ^^^ 4294967295) &&& z)

def majFn (x y z : Nat) : Nat := (x &&& y) ^^^ (x &&& z) ^^^ (y &&& z)

/-- The 64 SHA-256 round constants (FIPS 180-4, written in decimal). -/
def sha256K : List Nat :=
  [1116352408, 1899447441, 3049323471, 3921009573,
   961987163, 1508970993, 2453635748, 2870763221,
   3624381080, 310598401, 607225278, 1426881987,
   1925078388, 2162078206, 2614888103, 3248222580,
   3835390401, 4022224774, 264347078, 604807628,
   770255983, 1249150122, 1555081692, 1996064986,
   2554220882, 2821834349, 2952996808, 3210313671,
   3336571891, 3584528711, 113926993, 338241895,
   666307205, 773529912, 1294757372, 1396182291,
   1695183700, 1986661051, 2177026350, 2456956037,
   2730485921, 2820302411, 3259730800, 3345764771,
   3516065817, 3600352804, 4094571909, 275423344,
   430227734, 506948616, 659060556, 883997877,
   958139571, 1322822218, 1537002063, 1747873779,
   1955562222, 2024104815, 2227730452, 2361852424,
   2428436474, 2756734187, 3204031479, 3329325298]

/-- The eight working words of the SHA-256 state. -/
structure Hash8 where
  h0 : Nat
  h1 : Nat
  h2 : Nat
  h3 : Nat
  h4 : Nat
  h5 : Nat
  h6 : Nat
  h7 : Nat
deriving Repr, DecidableEq

def sha256Init : Hash8 :=
  ⟨1779033703, 3144134277, 1013904242, 2773480762,
   1359893119, 2600822924, 528734635, 1541459225⟩

/-- Big-endian byte serialization of `n` on `k` bytes. -/
def beBytes (k n : Nat) : List Nat :=
  (List.range k).map (fun i => (n >>> (8 * (k - 1 - i))) % 256)

/-- SHA-256 padding: append `0x80`, zero bytes up to 56 mod 64, then the
bit length on 8 big-endian bytes. -/
def sha256pad (msg : List Nat) : List Nat :=
  msg ++ 0x80 :: List.replicate ((119 - msg.length % 64) % 64) 0 ++ beBytes 8 (8 * msg.length)

/-- Group consecutive groups of 4 bytes into big-endian 32-bit words. -/
def bytesToWords : List Nat → List Nat
  | a :: b :: c :: d :: rest => (a * 16777216 + b * 65536 + c * 256 + d) :: bytesToWords rest
  | _ => []

/-- Split into 64-byte blocks. -/
def chunks64 (l : List Nat) : List (List Nat) :=
  (List.range ((l.length + 63) / 64)).map (fun i => (l.drop (64 * i)).take 64)

/-- One step of the message-schedule extension. -/
def schedStep (acc : List Nat) : List Nat :=
  let t := acc.length
  acc ++ [w32 (sigSmall1 (acc.getD (t - 2) 0) + acc.getD (t - 7) 0 +
               sigSmall0 (acc.getD (t - 15) 0) + acc.getD (t - 16) 0)]

/-- Extend the 16 block words to the 64-entry message schedule. -/
def schedule (ws : List Nat) : List Nat :=
  (List.range 48).foldl (fun a _ => schedStep a) ws

/-- One SHA-256 compression round; the pair carries `(Wt, Kt)`. -/
def compressStep (st : Hash8) (wk : Nat × Nat) : Hash8 :=
  let t1 := w32 (st.h7 + sigBig1 st.h4 + chFn st.h4 st.h5 st.h6 + wk.2 + wk.1)
  let t2 := w32 (sigBig0 st.h0 + majFn st.h0 st.h1 st.h2)
  ⟨w32 (t1 + t2), st.h0, st.h1, st.h2, w32 (st.h3 + t1), st.h4, st.h5, st.h6⟩

/-- Process one 64-byte block. -/
def processBlock (st : Hash8) (block : List Nat) : Hash8 :=
  let c := ((schedule (bytesToWords block)).zip sha256K).foldl compressStep st
  ⟨w32 (st.h0 + c.h0), w32 (st.h1 + c.h1), w32 (st.h2 + c.h2), w32 (st.h3 + c.h3),
   w32 (st.h4 + c.h4), w32 (st.h5 + c.h5), w32 (st.h6 + c.h6), w32 (st.h7 + c.h7)⟩

/-- A hexadecimal digit character. -/
def hexDigit (n : Nat) : Char :=
  if n < 10 then Char.ofNat (48 + n) else Char.ofNat (87 + n)

/-- The eight hex characters of a 32-bit word, most significant first. -/
def hexWord (x : Nat) : List Char :=
  (List.range 8).map (fun i => hexDigit ((x >>> (4 * (7 - i))) % 16))

/-- Hex digest (`digest('hex')`) of a byte sequence: 64 characters. -/
def sha256hexChars (msg : List Nat) : List Char :=
  let f := (chunks64 (sha256pad msg)).foldl processBlock sha256Init
  hexWord f.h0 ++ hexWord f.h1 ++ hexWord f.h2 ++ hexWord f.h3 ++
  hexWord f.h4 ++ hexWord f.h5 ++ hexWord f.h6 ++ hexWord f.h7

/-- UTF-8 encoding of one character (hash input bytes, as `update` does
on a JavaScript string). -/
def utf8Bytes (c : Char) : List Nat :=
  let n := c.toNat
  if n < 128 then [n]
  else if n < 2048 then [192 ||| (n >>> 6), 128 ||| (n &&& 63)]
  else if n < 65536 then
    [224 ||| (n >>> 12), 128 ||| ((n >>> 6) &&& 63), 128 ||| (n &&& 63)]
  else
    [240 ||| (n >>> 18), 128 ||| ((n >>> 12) &&& 63),
     128 ||| ((n >>> 6) &&& 63), 128 ||| (n &&& 63)]

/-- UTF-8 bytes of a string. -/
def strBytes (s : String) : List Nat := (s.data.map utf8Bytes).flatten

/-! ## The room identity function (`generateChatRoomId`, lines 15-29) -/

/-- Lexicographic comparison of two character sequences by code point
(an executable version of `List.lt`). -/
def ltChars : List Char → List Char → Bool
  | _, [] => false
  | [], _ :: _ => true
  | a :: as, b :: bs =>
    if a.toNat < b.toNat then true
    else if b.toNat < a.toNat then false
    else ltChars as bs

/-- Lexicographic `<` on strings, executable. -/
def jsStrLt (a b : String) : Bool := ltChars a.data b.data

/-- `[userId1, userId2].sort()` on a two-element array of strings:
lexicographically ascending, stable. -/
def jsSortPair (a b : String) : String × String :=
  if jsStrLt b a then (b, a) else (a, b)

/-- `generateChatRoomId(userId1, userId2, productId)`: sort the two user
ids, join with `_`, SHA-256, keep the first 32 hex characters
(`hash.substring(0, 32)`). -/
def generateChatRoomId (userId1 userId2 productId : String) : String :=
  let sorted := jsSortPair userId1 userId2
  let uniqueString := sorted.1 ++ "_" ++ sorted.2 ++ "_" ++ productId
  String.mk ((sha256hexChars (strBytes uniqueString)).take 32)

/-- Modelled from the spec: the reference description of the room
identity function in section 4.1 - the first 32 hexadecimal characters of
the SHA-256 digest of `min(A,B) ++ "_" ++ max(A,B) ++ "_" ++ L`. -/
def deriveRoomIdSpec (A B L : String) : String :=
  String.mk ((sha256hexChars (strBytes (min A B ++ "_" ++ max A B ++ "_" ++ L))).take 32)

/-! ## Document store model

The controller talks to Firestore: `products`, `users` and `chatRooms`
collections (get by key / set / update) and a flat `messages`
sub-collection per room queried with `orderBy('timestamp','asc')`.
Legacy rooms can store participants as numbers or not as an array at
all, which is why `participants` is an `Option (List PVal)`. -/

/-- A `products` document, with the fields the chat controller reads. -/
structure Product where
  userId : Option PVal
  title : Option String
  images : Option (List String)
  farmName : Option String
deriving Repr, DecidableEq

/-- A `users` document (only `name` is read here). -/
structure UserDoc where
  name : Option String
deriving Repr, DecidableEq

/-- A `chatRooms` document.  `participants = none` models an absent or
non-array field; timestamps are abstract instants (`Nat`). -/
structure ChatRoom where
  participants : Option (List PVal)
  participantNames : Option (List String)
  productId : String
  productTitle : String
  productImage : String
  createdAt : Option Nat
  updatedAt : Option Nat
  lastMessage : String
  lastMessageSenderId : Option String
  buyerId : String
  sellerId : String
  buyerName : String
  sellerName : String
deriving Repr, DecidableEq

/-- A message document of a room's `messages` sub-collection, together
with its document id. -/
structure Message where
  id : String
  chatRoomId : String
  senderId : String
  receiverId : String
  text : String
  timestamp : Nat
  read : Bool
deriving Repr, DecidableEq

/-- The whole document store, plus a counter supplying fresh message
document ids.  Messages are kept flat in insertion order; the
sub-collection of a room is the sub-list with its `chatRoomId`. -/
structure Store where
  products : List (String × Product)
  users : List (String × UserDoc)
  rooms : List (String × ChatRoom)
  msgs : List Message
  nextId : Nat
deriving Repr, DecidableEq

/-- `collection.doc(k).get()` on a keyed collection. -/
def lookupKey (k : String) : List (String × α) → Option α
  | [] => none
  | (k', v) :: rest => if k' = k then some v else lookupKey k rest

/-- `collection.doc(k).set(v)` : replace or insert the document at `k`. -/
def setKey (k : String) (v : α) : List (String × α) → List (String × α)
  | [] => [(k, v)]
  | (k', v') :: rest => if k' = k then (k, v) :: rest else (k', v') :: setKey k v rest

/-- The request principal: `req.user` with the fields the controller
reads.  A missing `uid` is modelled by the (falsy) empty string. -/
structure ReqUser where
  uid : String
  displayName : Option String
  name : Option String
deriving Repr, DecidableEq

/-- An error response: HTTP status plus thrown message. -/
abbrev Err := Nat × String

/-- The `Array.isArray` guard plus `map(p => String(p))` normalization
applied to a stored `participants` field. -/
def normParticipants : Option (List PVal) → List String
  | some l => l.map PVal.toStr
  | none => []

/-- A Firestore `where('participants', 'array-contains', uid)` test:
exact value equality, a legacy numeric entry does not match a string. -/
def arrayContainsStr (ps : Option (List PVal)) (uid : String) : Bool :=
  match ps with
  | some l => decide (PVal.str uid ∈ l)
  | none => false

/-- The room view returned by `createChatRoom` and `getChatRoomById`:
document id, the spread stored fields, the participants override
(normalized to strings) and the resolved other participant. -/
structure RoomView where
  id : String
  room : ChatRoom
  participants : List String
  otherParticipantId : Option String
deriving Repr, DecidableEq

/-- The room view returned by `getChatRooms`, which additionally carries
`otherParticipantName` (`none` models a JavaScript `undefined`). -/
structure RoomListView where
  id : String
  room : ChatRoom
  participants : List String
  otherParticipantId : Option String
  otherParticipantName : Option String
deriving Repr, DecidableEq

/-- Sort key used by `getChatRooms`:
`new Date(a.updatedAt || a.createdAt || 0).getTime()`. -/
def roomKey (r : ChatRoom) : Nat :=
  match r.updatedAt with
  | some t => t
  | none => r.createdAt.getD 0

/-- The view `getChatRooms` builds for one room document (lines 65-85). -/
def roomListView (userId : String) (docId : String) (data : ChatRoom) : RoomListView :=
  let participants := normParticipants data.participants
  let participantIndex := participants.findIdx? (fun id => id != userId)
  { id := docId
    room := data
    participants := participants
    otherParticipantId := jsOrNull (participants.find? (fun id => id != userId))
    otherParticipantName :=
      match data.participantNames, participantIndex with
      | some ns, some i => ns.get? i
      | _, _ => some "Unknown" }

/-! ## The handlers -/

/-- `getChatRooms` (GET /api/chat, lines 37-95): all rooms whose
`participants` array contains the caller, as views, newest first. -/
def getChatRooms (st : Store) (u : ReqUser) : Except Err (List RoomListView) :=
  if u.uid = "" then .error (401, "User ID not found - uid is required")
  else if 100 < u.uid.length then
    .error (401, "Invalid user ID - uid appears to be a token string")
  else
    let docs := st.rooms.filter (fun kv => arrayContainsStr kv.2.participants u.uid)
    let chatRooms := docs.map (fun kv => roomListView u.uid kv.1 kv.2)
    .ok (chatRooms.insertionSort (fun a b => roomKey b.room ≤ roomKey a.room))

/-- `createChatRoom` (POST /api/chat, lines 104-229): find-or-create the
room between the caller and the owner of `productId`.  On success the
returned triple is the HTTP status (200 found / 201 created), the room
view, and the store after the call. -/
def createChatRoom (st : Store) (u : ReqUser) (productId : String) (now : Nat) :
    Except Err (Nat × RoomView × Store) :=
  if productId = "" then .error (400, "Product ID is required")
  else if u.uid = "" then .error (401, "User ID not found - uid is required")
  else if 100 < u.uid.length then
    .error (401, "Invalid user ID - uid appears to be a token string")
  else
    let buyerId := u.uid
    match lookupKey productId st.products with
    | none => .error (404, "Product not found")
    | some product =>
      let sellerId := jsStringOrEmpty product.userId
      if sellerId = buyerId then
        .error (400, "You cannot start a chat for your own product")
      else
        let chatRoomId := generateChatRoomId buyerId sellerId productId
        match lookupKey chatRoomId st.rooms with
        | some existingData =>
          let participants := normParticipants existingData.participants
          .ok (200,
            { id := chatRoomId
              room := existingData
              participants := participants
              otherParticipantId :=
                jsOrNull (participants.find? (fun id => id != buyerId)) },
            st)
        | none =>
          let buyerName :=
            jsOrStr ((lookupKey buyerId st.users).bind UserDoc.name)
              (jsOrStr u.displayName (jsOrStr u.name "Buyer"))
          let sellerName :=
            jsOrStr ((lookupKey sellerId st.users).bind UserDoc.name)
              (jsOrStr product.farmName "Seller")
          let newChatRoom : ChatRoom :=
            { participants := some [PVal.str buyerId, PVal.str sellerId]
              participantNames := some [buyerName, sellerName]
              productId := productId
              productTitle := jsOrStr product.title ""
              productImage :=
                match product.images with
                | some (img :: _) => img
                | _ => ""
              createdAt := some now
              updatedAt := some now
              lastMessage := ""
              lastMessageSenderId := none
              buyerId := buyerId
              sellerId := sellerId
              buyerName := buyerName
              sellerName := sellerName }
          .ok (201,
            { id := chatRoomId
              room := newChatRoom
              participants := [buyerId, sellerId]
              otherParticipantId := some sellerId },
            { st with rooms := setKey chatRoomId newChatRoom st.rooms })

/-- `getChatRoomById` (GET /api/chat/:id, lines 237-293). -/
def getChatRoomById (st : Store) (u : ReqUser) (chatRoomId : String) :
    Except Err RoomView :=
  if u.uid = "" then .error (401, "User ID not found - uid is required")
  else if 100 < u.uid.length then
    .error (401, "Invalid user ID - uid appears to be a token string")
  else
    match lookupKey chatRoomId st.rooms with
    | none => .error (404, "Chat room not found")
    | some chatRoomData =>
      let participants := normParticipants chatRoomData.participants
      if u.uid ∈ participants then
        .ok { id := chatRoomId
              room := chatRoomData
              participants := participants
              otherParticipantId :=
                jsOrNull (participants.find? (fun id => id != u.uid)) }
      else .error (403, "Not authorized to access this chat room")

/-- `postMessage` (POST /api/chat/:id/messages, lines 301-391): append a
message and update the room summary fields. -/
def postMessage (st : Store) (u : ReqUser) (chatRoomId : String)
    (text : String) (now : Nat) : Except Err (Message × Store) :=
  if u.uid = "" then .error (401, "User ID not found - uid is required")
  else if 100 < u.uid.length then
    .error (401, "Invalid user ID - uid appears to be a token string")
  else if jsTrim text = "" then .error (400, "Message text is required")
  else
    match lookupKey chatRoomId st.rooms with
    | none => .error (404, "Chat room not found")
    | some chatRoomData =>
      let participants := normParticipants chatRoomData.participants
      if u.uid ∈ participants then
        match jsOrNull (participants.find? (fun id => id != u.uid)) with
        | none => .error (400, "Cannot determine receiver")
        | some receiverId =>
          let newMessage : Message :=
            { id := toString st.nextId
              chatRoomId := chatRoomId
              senderId := u.uid
              receiverId := receiverId
              text := jsTrim text
              timestamp := now
              read := false }
          let updatedRoom :=
            { chatRoomData with
                lastMessage := jsTrim text
                lastMessageSenderId := some u.uid
                updatedAt := some now }
          .ok (newMessage,
            { st with
                msgs := st.msgs ++ [newMessage]
                rooms := setKey chatRoomId updatedRoom st.rooms
                nextId := st.nextId + 1 })
      else .error (403, "Not authorized to post in this chat room")

/-- `getMessages` (GET /api/chat/:id/messages, lines 399-489): the
room's messages ordered by `timestamp` ascending (the store's sort is
stable, ties keep insertion order). -/
def getMessages (st : Store) (u : ReqUser) (chatRoomId : String) :
    Except Err (List Message) :=
  if u.uid = "" then .error (401, "User ID not found - uid is required")
  else if 100 < u.uid.length then
    .error (401, "Invalid user ID - uid appears to be a token string")
  else
    match lookupKey chatRoomId st.rooms with
    | none => .error (404, "Chat room not found")
    | some chatRoomData =>
      let participants := normParticipants chatRoomData.participants
      if u.uid ∈ participants then
        .ok (((st.msgs.filter (fun m => m.chatRoomId = chatRoomId)).insertionSort
          (fun a b => a.timestamp ≤ b.timestamp)))
      else .error (403, "Not authorized to access this chat room")

/-! ## Helper lemmas -/

lemma ltChars_iff : ∀ as bs : List Char, ltChars as bs = true ↔ as < bs := by
  intro as
  induction as with
  | nil =>
    intro bs
    cases bs with
    | nil => simp [ltChars]
    | cons b bs => simpa [ltChars] using List.Lex.nil
  | cons a as ih =>
    intro bs
    cases bs with
    | nil => simp [ltChars]
    | cons b bs =>
      by_cases h1 : a.toNat < b.toNat
      · simp only [ltChars, if_pos h1, true_iff]
        exact List.Lex.rel h1
      · by_cases h2 : b.toNat < a.toNat
        · simp only [ltChars, if_neg h1, if_pos h2, Bool.false_eq_true, false_iff]
          intro hcon
          cases hcon with
          | cons h3 => exact absurd h2 (lt_irrefl _)
          | rel h3 => exact h1 h3
        · have hab : a = b := Char.ext (UInt32.ext (show a.toNat = b.toNat by omega))
          subst hab
          simp only [ltChars, if_neg h1, ih bs]
          constructor
          · exact fun h3 => List.Lex.cons h3
          · intro hcon
            cases hcon with
            | cons h3 => exact h3
            | rel h3 => exact absurd h3 (lt_irrefl _)

lemma jsStrLt_iff (a b : String) : jsStrLt a b = true ↔ a < b := by
  rw [String.lt_iff_toList_lt]
  exact ltChars_iff a.data b.data

lemma jsStrLt_eq_false (a b : String) (h : ¬ a < b) : jsStrLt a b = false := by
  rw [← Bool.not_eq_true, jsStrLt_iff]
  exact h

lemma jsSortPair_comm (a b : String) : jsSortPair a b = jsSortPair b a := by
  rcases lt_trichotomy a b with h | h | h
  · rw [jsSortPair, jsSortPair, jsStrLt_eq_false b a (asymm h),
      (jsStrLt_iff a b).mpr h]
    rfl
  · subst h; rfl
  · rw [jsSortPair, jsSortPair, jsStrLt_eq_false a b (asymm h),
      (jsStrLt_iff b a).mpr h]
    rfl

lemma jsSortPair_eq_min_max (a b : String) : jsSortPair a b = (min a b, max a b) := by
  by_cases h : b < a
  · rw [jsSortPair, (jsStrLt_iff b a).mpr h, if_pos rfl,
      min_eq_right h.le, max_eq_left h.le]
  · rw [jsSortPair, jsStrLt_eq_false b a h]
    rw [min_eq_left (not_lt.mp h), max_eq_right (not_lt.mp h)]
    rfl

lemma hexWord_length (x : Nat) : (hexWord x).length = 8 := by
  simp [hexWord]

lemma sha256hexChars_length (msg : List Nat) : (sha256hexChars msg).length = 64 := by
  simp [sha256hexChars, hexWord_length]

lemma generateChatRoomId_length (a b l : String) :
    (generateChatRoomId a b l).length = 32 := by
  show (String.mk ((sha256hexChars _).take 32)).length = 32
  rw [show ∀ l : List Char, (String.mk l).length = l.length from fun _ => rfl]
  rw [List.length_take, sha256hexChars_length]
  rfl

lemma lookupKey_setKey_self (k : String) (v : α) (l : List (String × α)) :
    lookupKey k (setKey k v l) = some v := by
  induction l with
  | nil => simp [setKey, lookupKey]
  | cons p rest ih =>
    obtain ⟨k', v'⟩ := p
    by_cases h : k' = k
    · simp [setKey, h, lookupKey]
    · simp [setKey, h, lookupKey, ih]

lemma find?_other_eq {l : List String} {x y : String} (hxy : y ≠ x) (hy : y ∈ l)
    (hall : ∀ q ∈ l, q = x ∨ q = y) :
    l.find? (fun i => i != x) = some y := by
  induction l with
  | nil => cases hy
  | cons a rest ih =>
    rcases hall a (List.mem_cons_self a rest) with ha | ha
    · subst ha
      rw [List.find?_cons_of_neg _ (by simp)]
      apply ih
      · rcases List.mem_cons.mp hy with h | h
        · exact absurd h hxy
        · exact h
      · intro q hq
        exact hall q (List.mem_cons_of_mem _ hq)
    · subst ha
      exact List.find?_cons_of_pos _ (by simp [hxy])

lemma jsOrNull_find?_degenerate {l : List String} {x : String}
    (hall : ∀ q ∈ l, q = x ∨ q = "") :
    jsOrNull (l.find? (fun i => i != x)) = none := by
  rcases hf : l.find? (fun i => i != x) with _ | q
  · rfl
  · have hq1 := List.find?_some hf
    have hq2 := List.mem_of_find?_eq_some hf
    rcases hall q hq2 with h | h
    · rw [h] at hq1; simp at hq1
    · subst h; simp [jsOrNull]

/-- Successful `postMessage` calls happen only past every gate, and the
write appends one message and rewrites exactly the three summary fields
of the room. -/
lemma postMessage_ok_inv {st : Store} {u : ReqUser} {rid text : String} {now : Nat}
    {m : Message} {st' : Store}
    (h : postMessage st u rid text now = .ok (m, st')) :
    u.uid ≠ "" ∧ ¬ 100 < u.uid.length ∧ jsTrim text ≠ "" ∧
    ∃ r, lookupKey rid st.rooms = some r ∧
      u.uid ∈ normParticipants r.participants ∧
      m.chatRoomId = rid ∧ m.senderId = u.uid ∧ m.timestamp = now ∧
      st' = { st with
        msgs := st.msgs ++ [m]
        rooms := setKey rid { r with lastMessage := jsTrim text,
                                     lastMessageSenderId := some u.uid,
                                     updatedAt := some now } st.rooms
        nextId := st.nextId + 1 } := by
  simp only [postMessage] at h
  split at h
  · exact absurd h (by simp)
  split at h
  · exact absurd h (by simp)
  split at h
  · exact absurd h (by simp)
  rename_i hu1 hu2 htext
  split at h
  · exact absurd h (by simp)
  rename_i r hr
  split at h
  case isFalse hmem => exact absurd h (by simp)
  case isTrue hmem =>
  split at h
  · exact absurd h (by simp)
  rename_i recv hrecv
  simp only [Except.ok.injEq, Prod.mk.injEq] at h
  obtain ⟨hm, hst⟩ := h
  subst hm hst
  exact ⟨hu1, hu2, htext, r, hr, hmem, rfl, rfl, rfl, rfl⟩

/-! ## Claim theorems: the room identity function -/

/-- C1: the room identity function is commutative in its two participant
arguments: `generateChatRoomId` sorts the pair before hashing, so
`derive_room_id(A, B, L) = derive_room_id(B, A, L)` for all strings. -/
theorem generateChatRoomId_comm (A B L : String) :
    generateChatRoomId A B L = generateChatRoomId B A L := by
  unfold generateChatRoomId
  rw [jsSortPair_comm]

/-- C6: reference definition of the room identity function:
`generateChatRoomId A B L` is exactly the first 32 hex characters of the
SHA-256 digest of `min(A,B) ++ "_" ++ max(A,B) ++ "_" ++ L` (the function
is literally deterministic, being pure), and its output length is exactly
32 characters whatever the lengths of `A`, `B`, `L`. -/
theorem generateChatRoomId_spec (A B L : String) :
    generateChatRoomId A B L = deriveRoomIdSpec A B L ∧
    (generateChatRoomId A B L).length = 32 := by
  constructor
  · unfold generateChatRoomId deriveRoomIdSpec
    rw [jsSortPair_eq_min_max]
  · exact generateChatRoomId_length A B L

/-! ## Claim theorems: find-or-create -/

/-- C4: self-chat rejection.  When the caller's subject identifier equals
the listing owner's (normalized) identifier, `createChatRoom` throws the
400 InvalidArgument error before any write; no room is created (the
operation yields no successor store at all). -/
theorem selfChatRejected (st : Store) (u : ReqUser) (pid : String) (now : Nat)
    (p : Product)
    (hpid : pid ≠ "") (hu1 : u.uid ≠ "") (hu2 : ¬ 100 < u.uid.length)
    (hp : lookupKey pid st.products = some p)
    (hown : jsStringOrEmpty p.userId = u.uid) :
    createChatRoom st u pid now =
      .error (400, "You cannot start a chat for your own product") := by
  simp [createChatRoom, hpid, hu1, hu2, hp, hown]

def storeC4 : Store :=
  { products := [("p1", { userId := some (.str "alice"), title := none,
                          images := none, farmName := none })]
    users := [], rooms := [], msgs := [], nextId := 0 }

def userC4 : ReqUser := { uid := "alice", displayName := none, name := none }

theorem selfChatRejected_witness :
    createChatRoom storeC4 userC4 "p1" 0 =
      .error (400, "You cannot start a chat for your own product") :=
  selfChatRejected storeC4 userC4 "p1" 0 _ (by decide) (by decide) (by decide)
    rfl rfl

/-- C2: `findOrCreateRoom` is idempotent.  If a first call succeeds (so
the listing exists and the caller is not its owner), a second call with
the same caller and listing returns status 200, a view with the same
room id, leaves the store exactly as it was (no mutating write), and its
view spreads the stored room's fields unchanged. -/
theorem findOrCreateRoom_idempotent {st : Store} {u : ReqUser} {pid : String}
    {t1 t2 : Nat} {s1 : Nat} {v1 : RoomView} {st1 : Store}
    (h1 : createChatRoom st u pid t1 = .ok (s1, v1, st1)) :
    ∃ r, lookupKey v1.id st1.rooms = some r ∧
      createChatRoom st1 u pid t2 = .ok (200,
        { id := v1.id, room := r,
          participants := normParticipants r.participants
          otherParticipantId :=
            jsOrNull ((normParticipants r.participants).find? (fun id => id != u.uid)) },
        st1) := by
  simp only [createChatRoom] at h1
  split at h1
  · exact absurd h1 (by simp)
  split at h1
  · exact absurd h1 (by simp)
  split at h1
  · exact absurd h1 (by simp)
  rename_i hpid hu1 hu2
  split at h1
  · exact absurd h1 (by simp)
  rename_i p hp
  split at h1
  · exact absurd h1 (by simp)
  rename_i hsell
  split at h1
  · -- the first call found an existing room: nothing was written
    rename_i r hroom
    simp only [Except.ok.injEq, Prod.mk.injEq] at h1
    obtain ⟨hs, hv, hst⟩ := h1
    subst hst hv
    refine ⟨r, hroom, ?_⟩
    simp [createChatRoom, hpid, hu1, hu2, hp, hsell, hroom]
  · -- the first call created the room; the second call finds it
    rename_i hroom
    simp only [Except.ok.injEq, Prod.mk.injEq] at h1
    obtain ⟨hs, hv, hst⟩ := h1
    subst hst hv
    refine ⟨_, lookupKey_setKey_self _ _ _, ?_⟩
    simp [createChatRoom, hpid, hu1, hu2, hp, hsell, lookupKey_setKey_self]

def storeC2 : Store :=
  { products := [("p1", { userId := some (.str "seller1"), title := some "hay",
                          images := some ["pic"], farmName := some "farm" })]
    users := [], rooms := [], msgs := [], nextId := 0 }

def userC2 : ReqUser := { uid := "buyer1", displayName := none, name := none }

theorem findOrCreateRoom_idempotent_witness :
    ∃ s1 v1 st1, createChatRoom storeC2 userC2 "p1" 5 = .ok (s1, v1, st1) ∧
      ∃ r, lookupKey v1.id st1.rooms = some r ∧
        createChatRoom st1 userC2 "p1" 9 = .ok (200,
          { id := v1.id, room := r,
            participants := normParticipants r.participants
            otherParticipantId :=
              jsOrNull ((normParticipants r.participants).find?
                (fun id => id != userC2.uid)) },
          st1) := by
  obtain ⟨s1, v1, st1, h1⟩ :
      ∃ s1 v1 st1, createChatRoom storeC2 userC2 "p1" 5 = .ok (s1, v1, st1) :=
    ⟨_, _, _, rfl⟩
  exact ⟨s1, v1, st1, h1, findOrCreateRoom_idempotent h1⟩

/-! ## Claim theorems: membership gate -/

/-- C3: the membership gate.  For a valid subject: a missing room makes
`getRoom`, `postMessage` and `listMessages` all fail 404; for an existing
room, a caller outside the (string-normalized) participant set gets 403
from all three; a caller inside it succeeds on `getRoom` and
`listMessages` and never gets a 403/404 from `postMessage` (the only
error still possible there is the degenerate 400 receiver case). -/
theorem membershipGate (st : Store) (u : ReqUser) (rid text : String) (now : Nat)
    (hu1 : u.uid ≠ "") (hu2 : ¬ 100 < u.uid.length) (htext : jsTrim text ≠ "") :
    (lookupKey rid st.rooms = none →
       getChatRoomById st u rid = .error (404, "Chat room not found") ∧
       postMessage st u rid text now = .error (404, "Chat room not found") ∧
       getMessages st u rid = .error (404, "Chat room not found")) ∧
    (∀ r, lookupKey rid st.rooms = some r →
       (u.uid ∉ normParticipants r.participants →
          getChatRoomById st u rid =
            .error (403, "Not authorized to access this chat room") ∧
          postMessage st u rid text now =
            .error (403, "Not authorized to post in this chat room") ∧
          getMessages st u rid =
            .error (403, "Not authorized to access this chat room")) ∧
       (u.uid ∈ normParticipants r.participants →
          (∃ v, getChatRoomById st u rid = .ok v) ∧
          (∃ l, getMessages st u rid = .ok l) ∧
          ∀ e, postMessage st u rid text now = .error e →
            e = (400, "Cannot determine receiver"))) := by
  constructor
  · intro hnone
    refine ⟨?_, ?_, ?_⟩
    · simp [getChatRoomById, hu1, hu2, hnone]
    · simp [postMessage, hu1, hu2, htext, hnone]
    · simp [getMessages, hu1, hu2, hnone]
  · intro r hr
    constructor
    · intro hmem
      refine ⟨?_, ?_, ?_⟩
      · simp [getChatRoomById, hu1, hu2, hr, hmem]
      · simp [postMessage, hu1, hu2, htext, hr, hmem]
      · simp [getMessages, hu1, hu2, hr, hmem]
    · intro hmem
      refine ⟨⟨{ id := rid, room := r,
                 participants := normParticipants r.participants,
                 otherParticipantId :=
                   jsOrNull ((normParticipants r.participants).find?
                     (fun id => id != u.uid)) }, ?_⟩,
              ⟨(st.msgs.filter (fun m => m.chatRoomId = rid)).insertionSort
                 (fun a b => a.timestamp ≤ b.timestamp), ?_⟩, ?_⟩
      · simp [getChatRoomById, hu1, hu2, hr, hmem]
      · simp [getMessages, hu1, hu2, hr, hmem]
      · intro e he
        simp only [postMessage, if_neg hu1, if_neg hu2, if_neg htext] at he
        rw [hr] at he
        simp only [if_pos hmem] at he
        rcases hj : jsOrNull ((normParticipants r.participants).find?
            (fun id => id != u.uid)) with _ | recv
        · rw [hj] at he
          simp only [Except.error.injEq] at he
          exact he.symm
        · rw [hj] at he
          simp at he

def roomC3 : ChatRoom :=
  { participants := some [.str "x", .str "y"], participantNames := some ["X", "Y"]
    productId := "p", productTitle := "", productImage := ""
    createdAt := none, updatedAt := none, lastMessage := ""
    lastMessageSenderId := none, buyerId := "x", sellerId := "y"
    buyerName := "X", sellerName := "Y" }

def storeC3 : Store :=
  { products := [], users := [], rooms := [("r1", roomC3)], msgs := [], nextId := 0 }

def userC3x : ReqUser := { uid := "x", displayName := none, name := none }

def userC3z : ReqUser := { uid := "z", displayName := none, name := none }

theorem membershipGate_witness :
    getChatRoomById storeC3 userC3z "r1" =
      .error (403, "Not authorized to access this chat room") ∧
    (∃ v, getChatRoomById storeC3 userC3x "r1" = .ok v) ∧
    getChatRoomById storeC3 userC3x "nope" =
      .error (404, "Chat room not found") := by
  refine ⟨?_, ?_, ?_⟩
  · exact (((membershipGate storeC3 userC3z "r1" "hi" 0 (by decide) (by decide)
      (by decide)).2 roomC3 rfl).1 (by decide)).1
  · exact (((membershipGate storeC3 userC3x "r1" "hi" 0 (by decide) (by decide)
      (by decide)).2 roomC3 rfl).2 (by decide)).1
  · exact ((membershipGate storeC3 userC3x "nope" "hi" 0 (by decide) (by decide)
      (by decide)).1 rfl).1

/-! ## Claim theorems: receiver resolution -/

def roomC5 : ChatRoom :=
  { participants := some [.str "X", .str ""], participantNames := some ["X", ""]
    productId := "p", productTitle := "", productImage := ""
    createdAt := none, updatedAt := none, lastMessage := ""
    lastMessageSenderId := none, buyerId := "X", sellerId := ""
    buyerName := "X", sellerName := "" }

def storeC5 : Store :=
  { products := [], users := [], rooms := [("r5", roomC5)], msgs := [], nextId := 0 }

def userC5 : ReqUser := { uid := "X", displayName := none, name := none }

/-- C5 counterexample: the claim fails as stated.  The stored room `r5`
has the two distinct (string-normalized) participants `X` and `""`, yet a
message posted by `X` is NOT created with `receiverId = ""`: the
receiver lookup result `""` is falsy, so `if (!receiverId)` fires and the
call fails 400 "Cannot determine receiver" even though a participant
different from the sender exists. -/
theorem receiverResolution_cex :
    (lookupKey "r5" storeC5.rooms).map (fun r => normParticipants r.participants) =
      some ["X", ""] ∧
    postMessage storeC5 userC5 "r5" "hello" 3 =
      .error (400, "Cannot determine receiver") := ⟨rfl, rfl⟩

/-- C5 amended: for a room whose normalized participants form the set
`{X, Y}` with `X ≠ Y` and `Y` NON-EMPTY, a message posted by `X` is
created with `receiverId = Y`; and whenever every participant entry is
the sender or the empty string (so the lookup yields no truthy "other"),
the call fails 400 "Cannot determine receiver" without writing. -/
theorem receiverResolution (st : Store) (u : ReqUser) (rid text : String) (now : Nat)
    (hu1 : u.uid ≠ "") (hu2 : ¬ 100 < u.uid.length) (htext : jsTrim text ≠ "")
    (r : ChatRoom) (hr : lookupKey rid st.rooms = some r)
    (hmem : u.uid ∈ normParticipants r.participants) :
    (∀ y, y ∈ normParticipants r.participants → y ≠ u.uid → y ≠ "" →
       (∀ q ∈ normParticipants r.participants, q = u.uid ∨ q = y) →
       ∃ st', postMessage st u rid text now = .ok
         ({ id := toString st.nextId, chatRoomId := rid, senderId := u.uid,
            receiverId := y, text := jsTrim text, timestamp := now,
            read := false }, st')) ∧
    ((∀ q ∈ normParticipants r.participants, q = u.uid ∨ q = "") →
       postMessage st u rid text now = .error (400, "Cannot determine receiver")) := by
  constructor
  · intro y hy hyx hyne hall
    have hfind : (normParticipants r.participants).find? (fun i => i != u.uid) =
        some y := find?_other_eq hyx hy hall
    refine ⟨{ st with
        msgs := st.msgs ++
          [{ id := toString st.nextId, chatRoomId := rid, senderId := u.uid,
             receiverId := y, text := jsTrim text, timestamp := now,
             read := false }]
        rooms := setKey rid { r with lastMessage := jsTrim text,
                                     lastMessageSenderId := some u.uid,
                                     updatedAt := some now } st.rooms
        nextId := st.nextId + 1 }, ?_⟩
    simp [postMessage, hu1, hu2, htext, hr, hmem, hfind, jsOrNull, hyne]
  · intro hall
    have hnone := jsOrNull_find?_degenerate (x := u.uid) hall
    simp [postMessage, hu1, hu2, htext, hr, hmem, hnone]

def roomC5b : ChatRoom :=
  { participants := some [.str "X", .str "Y"], participantNames := some ["X", "Y"]
    productId := "p", productTitle := "", productImage := ""
    createdAt := none, updatedAt := none, lastMessage := ""
    lastMessageSenderId := none, buyerId := "X", sellerId := "Y"
    buyerName := "X", sellerName := "Y" }

def storeC5b : Store :=
  { products := [], users := [], rooms := [("r5b", roomC5b)], msgs := [], nextId := 0 }

theorem receiverResolution_witness :
    ∃ st', postMessage storeC5b userC5 "r5b" "hello" 3 = .ok
      ({ id := "0", chatRoomId := "r5b", senderId := "X", receiverId := "Y",
         text := "hello", timestamp := 3, read := false }, st') :=
  (receiverResolution storeC5b userC5 "r5b" "hello" 3 (by decide) (by decide)
      (by decide) roomC5b rfl (by decide)).1
    "Y" (by decide) (by decide) (by decide) (by decide)

/-! ## Claim theorems: message ordering -/

instance : IsTotal Message (fun a b => a.timestamp ≤ b.timestamp) :=
  ⟨fun a b => Nat.le_total a.timestamp b.timestamp⟩

instance : IsTrans Message (fun a b => a.timestamp ≤ b.timestamp) :=
  ⟨fun _ _ _ => Nat.le_trans⟩

/-- C7: message ordering.  Every successful `listMessages` result is the
room's full message history (a permutation of the stored sub-collection)
in ascending timestamp order; and in the two-post scenario - post `M1`
at `t1`, then `M2` at `t2 ≥ t1`, into a room with no prior messages -
`listMessages` returns exactly `[M1, M2]`. -/
theorem messageOrdering (st : Store) (u : ReqUser) (rid : String) :
    (∀ l, getMessages st u rid = .ok l →
       List.Sorted (fun a b : Message => a.timestamp ≤ b.timestamp) l ∧
       l.Perm (st.msgs.filter (fun m => m.chatRoomId = rid))) ∧
    (∀ tx1 tx2 t1 t2 m1 st1 m2 st2,
       st.msgs.filter (fun m => m.chatRoomId = rid) = [] →
       postMessage st u rid tx1 t1 = .ok (m1, st1) →
       postMessage st1 u rid tx2 t2 = .ok (m2, st2) →
       t1 ≤ t2 →
       getMessages st2 u rid = .ok [m1, m2]) := by
  constructor
  · intro l hl
    simp only [getMessages] at hl
    split at hl
    · exact absurd hl (by simp)
    split at hl
    · exact absurd hl (by simp)
    split at hl
    · exact absurd hl (by simp)
    rename_i r hr
    split at hl
    case isFalse hmem => exact absurd hl (by simp)
    case isTrue hmem =>
    simp only [Except.ok.injEq] at hl
    subst hl
    exact ⟨List.sorted_insertionSort _ _, List.perm_insertionSort _ _⟩
  · intro tx1 tx2 t1 t2 m1 st1 m2 st2 h0 h1 h2 ht
    obtain ⟨hu1, hu2, _, r, hr, hmem, hc1, _, hts1, hst1⟩ := postMessage_ok_inv h1
    obtain ⟨_, _, _, r2, hr2, hmem2, hc2, _, hts2, hst2⟩ := postMessage_ok_inv h2
    subst hst1 hst2
    simp [getMessages, hu1, hu2, lookupKey_setKey_self, hmem2, h0, hc1, hc2,
      List.filter_append, List.insertionSort, List.orderedInsert,
      hts1, hts2, ht]

def roomC7 : ChatRoom :=
  { participants := some [.str "x", .str "y"], participantNames := some ["X", "Y"]
    productId := "p", productTitle := "", productImage := ""
    createdAt := some 0, updatedAt := some 0, lastMessage := ""
    lastMessageSenderId := none, buyerId := "x", sellerId := "y"
    buyerName := "X", sellerName := "Y" }

def storeC7 : Store :=
  { products := [], users := [], rooms := [("r7", roomC7)], msgs := [], nextId := 0 }

def userC7 : ReqUser := { uid := "x", displayName := none, name := none }

theorem messageOrdering_witness :
    ∃ m1 st1 m2 st2,
      postMessage storeC7 userC7 "r7" "one" 1 = .ok (m1, st1) ∧
      postMessage st1 userC7 "r7" "two" 2 = .ok (m2, st2) ∧
      getMessages st2 userC7 "r7" = .ok [m1, m2] := by
  obtain ⟨m1, st1, h1⟩ :
      ∃ m st', postMessage storeC7 userC7 "r7" "one" 1 = .ok (m, st') :=
    ⟨_, _, rfl⟩
  obtain ⟨m2, st2, h2⟩ :
      ∃ m st', postMessage st1 userC7 "r7" "two" 2 = .ok (m, st') := by
    rw [show st1 = (match postMessage storeC7 userC7 "r7" "one" 1 with
        | .ok (_, s) => s
        | .error _ => storeC7) from by rw [h1]]
    exact ⟨_, _, rfl⟩
  exact ⟨m1, st1, m2, st2, h1, h2,
    (messageOrdering storeC7 userC7 "r7").2 "one" "two" 1 2 m1 st1 m2 st2
      rfl h1 h2 (by decide)⟩

/-! ## Claim theorems: the participants invariant -/

def productC8 : Product :=
  { userId := none, title := some "t", images := none, farmName := none }

def storeC8 : Store :=
  { products := [("p8", productC8)], users := [], rooms := [], msgs := [], nextId := 0 }

def userC8 : ReqUser := { uid := "buyer1", displayName := none, name := none }

/-- C8 counterexample: the claim's non-emptiness part fails.  For a
listing whose `userId` is missing, `createChatRoom` succeeds (201) and
the room it writes has `participants = ["buyer1", ""]` - the seller
entry is the EMPTY string, not a non-empty identifier. -/
theorem participantsInvariant_cex :
    (createChatRoom storeC8 userC8 "p8" 0).map
      (fun x => (x.1, x.2.1.room.participants)) =
      .ok (201, some [.str "buyer1", .str ""]) ∧
    (createChatRoom storeC8 userC8 "p8" 0).map
      (fun x => (lookupKey x.2.1.id x.2.2.rooms).map (fun r => r.participants)) =
      .ok (some (some [.str "buyer1", .str ""])) := ⟨rfl, rfl⟩

/-- C8 amended: every room written by `findOrCreateRoom` has a
participants array of exactly two string entries `[buyer, seller]` that
are distinct from each other, with the buyer entry non-empty; the seller
entry is the normalized listing owner id and is empty exactly when that
owner id is missing or falsy (so non-emptiness of BOTH entries does not
hold in general).  `postMessage` writes back the same room with only
`lastMessage`, `lastMessageSenderId` and `updatedAt` changed - in
particular `participants` is never modified. -/
theorem participantsInvariant :
    (∀ st (u : ReqUser) pid now v st',
       createChatRoom st u pid now = .ok (201, v, st') →
       ∃ s, lookupKey v.id st'.rooms = some v.room ∧
         v.room.participants = some [PVal.str u.uid, PVal.str s] ∧
         u.uid ≠ "" ∧ s ≠ u.uid) ∧
    (∀ st (u : ReqUser) rid text now m st',
       postMessage st u rid text now = .ok (m, st') →
       ∃ r, lookupKey rid st.rooms = some r ∧
         lookupKey rid st'.rooms = some { r with
           lastMessage := jsTrim text
           lastMessageSenderId := some u.uid
           updatedAt := some now }) := by
  constructor
  · intro st u pid now v st' h
    simp only [createChatRoom] at h
    split at h
    · exact absurd h (by simp)
    split at h
    · exact absurd h (by simp)
    split at h
    · exact absurd h (by simp)
    rename_i hpid hu1 hu2
    split at h
    · exact absurd h (by simp)
    rename_i p hp
    split at h
    · exact absurd h (by simp)
    rename_i hsell
    split at h
    · exact absurd h (by simp)
    simp only [Except.ok.injEq, Prod.mk.injEq] at h
    obtain ⟨-, hv, hst⟩ := h
    subst hv hst
    exact ⟨jsStringOrEmpty p.userId, lookupKey_setKey_self _ _ _, rfl, hu1, hsell⟩
  · intro st u rid text now m st' h
    obtain ⟨-, -, -, r, hr, -, -, -, -, hst⟩ := postMessage_ok_inv h
    subst hst
    exact ⟨r, hr, lookupKey_setKey_self _ _ _⟩

def productC8b : Product :=
  { userId := some (.str "sell8"), title := some "t", images := none,
    farmName := none }

def storeC8b : Store :=
  { products := [("p8b", productC8b)], users := [], rooms := [], msgs := [], nextId := 0 }

theorem participantsInvariant_witness :
    (∃ v st', createChatRoom storeC8b userC8 "p8b" 0 = .ok (201, v, st') ∧
       ∃ s, lookupKey v.id st'.rooms = some v.room ∧
         v.room.participants = some [PVal.str "buyer1", PVal.str s] ∧
         ("buyer1" : String) ≠ "" ∧ s ≠ "buyer1") ∧
    (∃ m st2, postMessage storeC5b userC5 "r5b" "ho" 4 = .ok (m, st2) ∧
       ∃ r, lookupKey "r5b" storeC5b.rooms = some r ∧
         lookupKey "r5b" st2.rooms = some { r with
           lastMessage := jsTrim "ho"
           lastMessageSenderId := some "X"
           updatedAt := some 4 }) := by
  constructor
  · obtain ⟨v, st', h⟩ :
        ∃ v st', createChatRoom storeC8b userC8 "p8b" 0 = .ok (201, v, st') :=
      ⟨_, _, rfl⟩
    exact ⟨v, st', h, participantsInvariant.1 _ _ _ _ _ _ h⟩
  · obtain ⟨m, st2, h⟩ :
        ∃ m st2, postMessage storeC5b userC5 "r5b" "ho" 4 = .ok (m, st2) :=
      ⟨_, _, rfl⟩
    exact ⟨m, st2, h, participantsInvariant.2 _ _ _ _ _ _ _ h⟩

/-! ## Claim theorems: the name fallback of the room list -/

def roomC9 : ChatRoom :=
  { participants := some [.str "u1", .str "u2"], participantNames := some []
    productId := "p", productTitle := "", productImage := ""
    createdAt := some 1, updatedAt := some 1, lastMessage := ""
    lastMessageSenderId := none, buyerId := "u1", sellerId := "u2"
    buyerName := "U1", sellerName := "U2" }

def storeC9 : Store :=
  { products := [], users := [], rooms := [("r9", roomC9)], msgs := [], nextId := 0 }

def userC9 : ReqUser := { uid := "u1", displayName := none, name := none }

/-- C9 counterexample: the claim's "defaults to Unknown whenever the
names are misaligned" fails.  Room `r9` stores `participantNames = []`,
shorter than the other participant's index 1, yet `getChatRooms` returns
`otherParticipantName` as JavaScript `undefined` (modelled `none`) - the
guard `names && isArray && index >= 0` passes and `names[1]` is
`undefined`, not the sentinel `"Unknown"`. -/
theorem nameFallback_cex :
    (lookupKey "r9" storeC9.rooms).map (fun r => r.participantNames) =
      some (some []) ∧
    (getChatRooms storeC9 userC9).map
      (fun l => l.map (fun v => v.otherParticipantName)) = .ok [none] :=
  ⟨rfl, rfl⟩

/-- C9 amended: for every room view returned by `getChatRooms`,
`otherParticipantName` is the `participantNames` entry at the other
participant's index when `participantNames` is present (possibly
`undefined` when the array is shorter than that index), and it defaults
to the sentinel `"Unknown"` exactly when `participantNames` is absent or
not an array, or when there is no entry different from the caller
(index -1). -/
theorem nameFallback (st : Store) (u : ReqUser)
    (hu1 : u.uid ≠ "") (hu2 : ¬ 100 < u.uid.length) :
    ∀ l, getChatRooms st u = .ok l → ∀ v ∈ l,
      ((v.room.participantNames = none ∨
          v.participants.findIdx? (fun id => id != u.uid) = none) →
        v.otherParticipantName = some "Unknown") ∧
      (∀ ns i, v.room.participantNames = some ns →
        v.participants.findIdx? (fun id => id != u.uid) = some i →
        v.otherParticipantName = ns.get? i) := by
  intro l hl v hv
  simp only [getChatRooms, if_neg hu1, if_neg hu2, Except.ok.injEq] at hl
  subst hl
  rw [List.mem_insertionSort, List.mem_map] at hv
  obtain ⟨kv, hkv, rfl⟩ := hv
  constructor
  · intro hcase
    rcases hn : kv.2.participantNames with _ | ns
    · simp [roomListView, hn]
    · rcases hcase with hc | hc
      · exact absurd (hn ▸ hc) (by simp)
      · have hi : (normParticipants kv.2.participants).findIdx?
            (fun id => id != u.uid) = none := hc
        simp [roomListView, hn, hi]
  · intro ns i hns hidx
    have hns' : kv.2.participantNames = some ns := hns
    have hidx' : (normParticipants kv.2.participants).findIdx?
        (fun id => id != u.uid) = some i := hidx
    simp [roomListView, hns', hidx']

theorem nameFallback_witness :
    (roomListView "x" "r7" roomC7).otherParticipantName = some "Y" := by
  have hl : getChatRooms storeC7 userC7 = .ok [roomListView "x" "r7" roomC7] := rfl
  exact (nameFallback storeC7 userC7 (by decide) (by decide) _ hl _
      (List.mem_singleton.mpr rfl)).2 ["X", "Y"] 1 rfl (by decide)

/-! ## Claim theorems: degenerate participant sets at the interface -/

def roomC10 : ChatRoom :=
  { participants := none, participantNames := none
    productId := "p", productTitle := "", productImage := ""
    createdAt := none, updatedAt := none, lastMessage := ""
    lastMessageSenderId := none, buyerId := "", sellerId := ""
    buyerName := "", sellerName := "" }

def storeC10 : Store :=
  { products := [], users := [], rooms := [("r10", roomC10)], msgs := [], nextId := 0 }

def userC10 : ReqUser := { uid := "z", displayName := none, name := none }

/-- C10 counterexample: the claim fails for `getRoom`.  Room `r10`
stores a non-array `participants` field, which normalizes to the empty
list; `getChatRoomById` does NOT return a view with
`otherParticipantId = null` - the membership check fails (the caller is
not among zero participants) and the call is rejected 403 Forbidden. -/
theorem degenerateParticipants_cex :
    (lookupKey "r10" storeC10.rooms).map (fun r => r.participants) = some none ∧
    getChatRoomById storeC10 userC10 "r10" =
      .error (403, "Not authorized to access this chat room") := ⟨rfl, rfl⟩

/-- C10 amended: when a stored room's normalized participants contain no
entry different from the caller: `listRoomsForUser` never fails and every
returned view with that property has `otherParticipantId = null`; the
existing-room branch of `findOrCreateRoom` succeeds (200, no write) with
`otherParticipantId = null`; `getRoom` returns `otherParticipantId =
null` when the caller is among the (all-equal) entries, but fails 403
Forbidden when the normalized participants are empty (absent, non-array,
or empty array) since the caller is then not a member; and `postMessage`
always rejects such a state - 400 "Cannot determine receiver" when the
caller is a member, 403 otherwise. -/
theorem degenerateParticipants (st : Store) (u : ReqUser)
    (hu1 : u.uid ≠ "") (hu2 : ¬ 100 < u.uid.length) :
    (∃ l, getChatRooms st u = .ok l ∧
       ∀ v ∈ l, (∀ q ∈ v.participants, q = u.uid) →
         v.otherParticipantId = none) ∧
    (∀ pid p r now, pid ≠ "" →
       lookupKey pid st.products = some p →
       jsStringOrEmpty p.userId ≠ u.uid →
       lookupKey (generateChatRoomId u.uid (jsStringOrEmpty p.userId) pid)
         st.rooms = some r →
       (∀ q ∈ normParticipants r.participants, q = u.uid) →
       ∃ v, createChatRoom st u pid now = .ok (200, v, st) ∧
         v.otherParticipantId = none) ∧
    (∀ rid r, lookupKey rid st.rooms = some r →
       ((u.uid ∈ normParticipants r.participants ∧
           (∀ q ∈ normParticipants r.participants, q = u.uid)) →
         ∃ v, getChatRoomById st u rid = .ok v ∧ v.otherParticipantId = none) ∧
       (normParticipants r.participants = [] →
         getChatRoomById st u rid =
           .error (403, "Not authorized to access this chat room"))) ∧
    (∀ rid r text now, lookupKey rid st.rooms = some r → jsTrim text ≠ "" →
       (∀ q ∈ normParticipants r.participants, q = u.uid) →
       postMessage st u rid text now = .error (400, "Cannot determine receiver") ∨
       postMessage st u rid text now =
         .error (403, "Not authorized to post in this chat room")) := by
  refine ⟨⟨((st.rooms.filter
      (fun kv => arrayContainsStr kv.2.participants u.uid)).map
        (fun kv => roomListView u.uid kv.1 kv.2)).insertionSort
          (fun a b => roomKey b.room ≤ roomKey a.room), ?_, ?_⟩, ?_, ?_, ?_⟩
  · simp [getChatRooms, hu1, hu2]
  · intro v hv hall
    rw [List.mem_insertionSort, List.mem_map] at hv
    obtain ⟨kv, hkv, rfl⟩ := hv
    have hfind : (normParticipants kv.2.participants).find?
        (fun id => id != u.uid) = none :=
      List.find?_eq_none.mpr (fun x hx => by simp [hall x hx])
    simp [roomListView, hfind, jsOrNull]
  · intro pid p r now hpid hp hsell hroom hall
    have hfind : (normParticipants r.participants).find?
        (fun id => id != u.uid) = none :=
      List.find?_eq_none.mpr (fun x hx => by simp [hall x hx])
    refine ⟨{ id := generateChatRoomId u.uid (jsStringOrEmpty p.userId) pid
              room := r
              participants := normParticipants r.participants
              otherParticipantId := jsOrNull ((normParticipants
                r.participants).find? (fun id => id != u.uid)) }, ?_, ?_⟩
    · simp [createChatRoom, hpid, hu1, hu2, hp, hsell, hroom]
    · simp [hfind, jsOrNull]
  · intro rid r hr
    constructor
    · intro ⟨hmem, hall⟩
      have hfind : (normParticipants r.participants).find?
          (fun id => id != u.uid) = none :=
        List.find?_eq_none.mpr (fun x hx => by simp [hall x hx])
      refine ⟨{ id := rid, room := r
                participants := normParticipants r.participants
                otherParticipantId := jsOrNull ((normParticipants
                  r.participants).find? (fun id => id != u.uid)) }, ?_, ?_⟩
      · simp [getChatRoomById, hu1, hu2, hr, hmem]
      · simp [hfind, jsOrNull]
    · intro hempty
      have hmem : u.uid ∉ normParticipants r.participants := by
        rw [hempty]; exact List.not_mem_nil u.uid
      simp [getChatRoomById, hu1, hu2, hr, hmem]
  · intro rid r text now hr htext hall
    by_cases hmem : u.uid ∈ normParticipants r.participants
    · left
      have hfind : (normParticipants r.participants).find?
          (fun id => id != u.uid) = none :=
        List.find?_eq_none.mpr (fun x hx => by simp [hall x hx])
      simp [postMessage, hu1, hu2, htext, hr, hmem, hfind, jsOrNull]
    · right
      simp [postMessage, hu1, hu2, htext, hr, hmem]

def roomC10b : ChatRoom :=
  { participants := some [.str "z", .str "z"], participantNames := some ["Z", "Z"]
    productId := "p", productTitle := "", productImage := ""
    createdAt := none, updatedAt := none, lastMessage := ""
    lastMessageSenderId := none, buyerId := "z", sellerId := "z"
    buyerName := "Z", sellerName := "Z" }

def storeC10b : Store :=
  { products := [], users := [], rooms := [("rz", roomC10b)], msgs := [], nextId := 0 }

theorem degenerateParticipants_witness :
    (∃ v, getChatRoomById storeC10b userC10 "rz" = .ok v ∧
       v.otherParticipantId = none) ∧
    (postMessage storeC10b userC10 "rz" "hey" 2 =
       .error (400, "Cannot determine receiver") ∨
     postMessage storeC10b userC10 "rz" "hey" 2 =
       .error (403, "Not authorized to post in this chat room")) := by
  constructor
  · exact (((degenerateParticipants storeC10b userC10 (by decide)
      (by decide)).2.2.1 "rz" roomC10b rfl).1 ⟨by decide, by decide⟩)
  · exact ((degenerateParticipants storeC10b userC10 (by decide)
      (by decide)).2.2.2 "rz" roomC10b "hey" 2 rfl (by decide) (by decide))

end WasteCycle
